import Mathlib

/-!
Verification development for the inkkeys python controller
(src/python-controller: controller.py, modes.py, inkkeys/device.py).

Shallow embedding notes:
* Python strings are Lean `String`s (or `List Char` where convenient).
* Serial input is modelled as a `List (Option String)`: each call of
  `read_from_device` pops one element; `none` means "no complete line is
  available yet"; once the list is exhausted every further read yields
  `none` (no more data ever arrives).
* Wall-clock time inside the timeout loops is modelled in tenths of a
  second: reads are instantaneous and each `time.sleep(0.1)` advances the
  clock by one tenth.  A `timeout` of t seconds is `10 * t` tenths and the
  python check `time.time() - start > timeout` becomes `timeout < elapsed`.
* Python `None`-or-`False` return values are `Option Bool` (`none` / `some false`).
* A python exception (IndexError / ValueError) is `Except Unit` or an
  explicit `error` constructor.
-/

namespace Inkkeys

/-- Python `str.isdecimal` restricted to the character repertoire reachable
through the ISO-8859-16 decoder used by the transport, on which the only
Unicode decimal digits are the ASCII digits 0-9. -/
def isDecimalChars (l : List Char) : Bool :=
  !l.isEmpty && l.all fun c => '0' ≤ c && c ≤ '9'

/-- Numeric value of a list of ASCII decimal digits (value of python
`int(...)` on a string `str.isdecimal` accepts). -/
def digitsVal (l : List Char) : Nat :=
  l.foldl (fun a c => 10 * a + (c.toNat - 48)) 0

/-- Python whitespace as stripped by `int()` before parsing. -/
def isPySpace (c : Char) : Bool :=
  c = ' ' || c = '\t' || c = '\n' || c = '\x0d' || c = '\x0b' || c = '\x0c'

/-- Strip leading and trailing whitespace. -/
def trimChars (l : List Char) : List Char :=
  ((l.dropWhile isPySpace).reverse.dropWhile isPySpace).reverse

/-- Python `int(str)`: strip surrounding whitespace, allow one optional sign,
then decimal digits; any other shape raises ValueError (`none`). -/
def pyInt (s : String) : Option Int :=
  match trimChars s.toList with
  | '-' :: rest => if isDecimalChars rest then some (-(digitsVal rest : Int)) else none
  | '+' :: rest => if isDecimalChars rest then some ((digitsVal rest : Int)) else none
  | l => if isDecimalChars l then some ((digitsVal l : Int)) else none

/-!
Transport decoding (device.py `read_from_device`, line 80):
`self.inbuffer += self.ser.read(...).decode('ISO-8859-16').replace('\r', '')`.
`decodeByte` is the byte-to-character table of python's single-byte
ISO-8859-16 codec: it maps every byte to its own code point except for the
40 re-assigned positions of the high half (Latin-10); every byte value
decodes, to exactly one character.
-/

/-- Byte-to-character table of the ISO-8859-16 codec (python
`bytes([b]).decode('iso-8859-16')`). -/
def decodeByte (b : Nat) : Char :=
  if b = 161 then Char.ofNat 260 else if b = 162 then Char.ofNat 261
  else if b = 163 then Char.ofNat 321 else if b = 164 then Char.ofNat 8364
  else if b = 165 then Char.ofNat 8222 else if b = 166 then Char.ofNat 352
  else if b = 168 then Char.ofNat 353 else if b = 170 then Char.ofNat 536
  else if b = 172 then Char.ofNat 377 else if b = 174 then Char.ofNat 378
  else if b = 175 then Char.ofNat 379 else if b = 178 then Char.ofNat 268
  else if b = 179 then Char.ofNat 322 else if b = 180 then Char.ofNat 381
  else if b = 181 then Char.ofNat 8221 else if b = 184 then Char.ofNat 382
  else if b = 185 then Char.ofNat 269 else if b = 186 then Char.ofNat 537
  else if b = 188 then Char.ofNat 338 else if b = 189 then Char.ofNat 339
  else if b = 190 then Char.ofNat 376 else if b = 191 then Char.ofNat 380
  else if b = 195 then Char.ofNat 258 else if b = 197 then Char.ofNat 262
  else if b = 208 then Char.ofNat 272 else if b = 209 then Char.ofNat 323
  else if b = 213 then Char.ofNat 336 else if b = 215 then Char.ofNat 346
  else if b = 216 then Char.ofNat 368 else if b = 221 then Char.ofNat 280
  else if b = 222 then Char.ofNat 538 else if b = 227 then Char.ofNat 259
  else if b = 229 then Char.ofNat 263 else if b = 240 then Char.ofNat 273
  else if b = 241 then Char.ofNat 324 else if b = 245 then Char.ofNat 337
  else if b = 247 then Char.ofNat 347 else if b = 248 then Char.ofNat 369
  else if b = 253 then Char.ofNat 281 else if b = 254 then Char.ofNat 539
  else Char.ofNat b

/-- Decode step of `read_from_device`: `data.decode('ISO-8859-16')`,
one character per received byte. -/
def decodeBytes (bs : List Nat) : List Char :=
  bs.map decodeByte

/-- Characters appended to `self.inbuffer` by `read_from_device` for a batch
of received bytes: the ISO-8859-16 decode followed by `.replace('\r', '')`. -/
def appendedChars (bs : List Nat) : List Char :=
  (decodeBytes bs).filter fun c => c ≠ '\r'

/-!
Event dispatcher (device.py `Device.poll`, lines 90-98).
The jog key code is a single character (protocol.py is not part of the
sources; per the spec, unsolicited key codes are single characters), so the
classifier is parametric in it.  `registered` is the key set of
`self.callbacks`.
-/

/-- Outcome of dispatching one inbound line in `Device.poll`. -/
inductive PollAction where
  | noHandler : PollAction
  | jog (delta : Int) : PollAction
  | key (code : String) : PollAction
  | indexError : PollAction
deriving Repr, DecidableEq

/-- Classification of an inbound line by `Device.poll` (device.py 94-98),
including python's evaluation order: `input[0] == JOG and
(input[1:].isdecimal() or (input[1] == '-' and input[2:].isdecimal()))`
raises IndexError at `input[1]` when the line is exactly the jog character
(and at `input[0]` when the line is empty). -/
def pollClassify (jogCode : Char) (registered : List String) (input : String) : PollAction :=
  match input.toList with
  | [] => .indexError
  | c :: rest =>
    if c = jogCode then
      if isDecimalChars rest then
        if String.mk [jogCode] ∈ registered then .jog (digitsVal rest) else .noHandler
      else
        match rest with
        | [] => .indexError
        | c1 :: rest2 =>
          if c1 = '-' && isDecimalChars rest2 then
            if String.mk [jogCode] ∈ registered then .jog (-(digitsVal rest2 : Int)) else .noHandler
          else if input ∈ registered then .key input else .noHandler
    else if input ∈ registered then .key input else .noHandler

/-!
Bounded-timeout wait loops (device.py `request_info` lines 119-162,
`update_display` lines 199-235).  `awaitLine` is the shared loop shape

    line = self.read_from_device()
    while line != target:
        if time.time() - start > timeout: return False
        if line is None:
            time.sleep(0.1); line = self.read_from_device(); continue
        line = self.read_from_device()

over the modelled input stream (`cur` is the line already read, the list
holds the reads still to come).  When the stream is exhausted every read
yields `none`, so the loop can only sleep until the deadline passes; the
base case below is that closed form: it fails, and the clock stands at the
first instant strictly past the timeout (or at `elapsed` if the deadline
had already passed). -/
def awaitLine (timeout : Nat) (target : String) :
    Option String → List (Option String) → Nat → Bool × List (Option String) × Nat
  | cur, [], elapsed =>
    if cur = some target then (true, [], elapsed)
    else (false, [], if timeout < elapsed then elapsed else timeout + 1)
  | cur, l :: rest, elapsed =>
    if cur = some target then (true, l :: rest, elapsed)
    else if timeout < elapsed then (false, l :: rest, elapsed)
    else
      match cur with
      | none => awaitLine timeout target l rest (elapsed + 1)
      | some _ => awaitLine timeout target l rest elapsed

/-- One call of `read_from_device` on the modelled stream. -/
def popLine (input : List (Option String)) : Option String × List (Option String) :=
  match input with
  | [] => (none, [])
  | l :: rest => (l, rest)

/-- Device capability fields populated by `request_info`
(initial values from `Device.__init__`). -/
structure Info where
  testmode : Bool
  num_of_leds : Int
  display_width : Int
  display_height : Int
  rotation_circle_steps : Int
deriving Repr, DecidableEq

/-- Field values set in `Device.__init__`. -/
def initInfo : Info :=
  ⟨false, 0, 0, 0, 0⟩

/-- Handling of one info line between the header and `Done`
(device.py 143-154).  `line[5]` on a five-character `TEST ` line is an
IndexError and a non-numeric suffix is a ValueError from `int(...)`, both
modelled as `Except.error`. -/
def processInfoLine (info : Info) (line : String) : Except Unit Info :=
  let cs := line.toList
  if cs.take 5 = "TEST ".toList then
    match cs.get? 5 with
    | some c => .ok { info with testmode := c ≠ '0' }
    | none => .error ()
  else if cs.take 6 = "N_LED ".toList then
    match pyInt (String.mk (cs.drop 6)) with
    | some v => .ok { info with num_of_leds := v }
    | none => .error ()
  else if cs.take 7 = "DISP_W ".toList then
    match pyInt (String.mk (cs.drop 7)) with
    | some v => .ok { info with display_width := v }
    | none => .error ()
  else if cs.take 7 = "DISP_H ".toList then
    match pyInt (String.mk (cs.drop 7)) with
    | some v => .ok { info with display_height := v }
    | none => .error ()
  else if cs.take 17 = "ROT_CIRCLE_STEPS ".toList then
    match pyInt (String.mk (cs.drop 17)) with
    | some v => .ok { info with rotation_circle_steps := v }
    | none => .error ()
  else
    .ok info

/-- Second loop of `request_info` (lines 135-155): read lines until `Done`,
populating the capability fields, under the same deadline as the header
scan.  Base case as in `awaitLine`: once the stream is exhausted `Done`
never arrives, so the loop processes the pending line (unless the deadline
has already passed, which the code checks first) and then sleeps into the
timeout and returns `False`. -/
def infoLoop (timeout : Nat) :
    Option String → List (Option String) → Nat → Info → Except Unit (Bool × Info)
  | cur, [], elapsed, info =>
    if cur = some "Done" then .ok (true, info)
    else
      match cur with
      | none => .ok (false, info)
      | some l =>
        if timeout < elapsed then .ok (false, info)
        else do
          let info2 ← processInfoLine info l
          .ok (false, info2)
  | cur, l :: rest, elapsed, info =>
    if cur = some "Done" then .ok (true, info)
    else if timeout < elapsed then .ok (false, info)
    else
      match cur with
      | none => infoLoop timeout l rest (elapsed + 1) info
      | some s => do
        let info2 ← processInfoLine info s
        infoLoop timeout l rest elapsed info2

/-- Connection handshake `Device.request_info` (lines 119-162): send the
info request, scan for the literal `Inkkeys` header discarding noise, then
populate capabilities until `Done`; the deadline spans both loops.
Returns the python return value (`True`/`False`) with the resulting fields,
or an error if a malformed info line raised. -/
def request_info (timeout : Nat) (input : List (Option String)) : Except Unit (Bool × Info) :=
  let s := awaitLine timeout "Inkkeys" (popLine input).1 (popLine input).2 0
  if s.1 then
    infoLoop timeout (popLine s.2.1).1 (popLine s.2.1).2 s.2.2 initInfo
  else
    .ok (false, initInfo)

/-!
Protocol command tokens.  `inkkeys/protocol.py` is imported by device.py but
is not among the sources, so these are opaque placeholder values.
-/

/-- Modelled from the spec: `protocol.py` is missing from the sources; the
spec treats the display-region header command code as an opaque ASCII token,
so a placeholder value is used. -/
def cmdDisplay : String := "D"

/-- Modelled from the spec: display-refresh command code (opaque token). -/
def cmdRefresh : String := "R"

/-- Modelled from the spec: full-refresh variant code (opaque token). -/
def refreshFull : String := "f"

/-- Modelled from the spec: partial-refresh variant code (opaque token). -/
def refreshPart : String := "p"

/-- Modelled from the spec: buffering-off refresh variant code (opaque token). -/
def refreshOff : String := "o"

/-!
Image pipeline (device.py `send_image` 164-175, `resend_image_data` 177-191,
`send_binary_to_device` 60-76).  A PIL mode-"1" image is a rectangular grid
of 1-bit pixels; every image reaching `send_image` in this code base is
already mode "1", on which `convert("1")` is the identity.  `rotate(180)`
reverses rows and columns; `tobytes()` packs each row MSB-first into
`ceil(w/8)` bytes (the trailing bits of the last byte of a row are zero).
-/

/-- A 1-bit PIL image: `size` is `(w, h)`, `px` the rows of pixels. -/
structure PilImage where
  w : Nat
  h : Nat
  px : List (List Bool)
deriving Repr, DecidableEq

/-- PIL `rotate(180)`: reverse the order of the rows and each row. -/
def rotate180 (img : PilImage) : PilImage :=
  ⟨img.w, img.h, (img.px.map List.reverse).reverse⟩

/-- Pack up to eight pixels into one byte, MSB first, zero-padded. -/
def pack8 (bits : List Bool) : Nat :=
  (bits.foldl (fun a b => 2 * a + (if b then 1 else 0)) 0) * 2 ^ (8 - bits.length)

/-- Split a row of pixels into groups of eight. -/
def groups8 (row : List Bool) : List (List Bool) :=
  if row.isEmpty then []
  else row.take 8 :: groups8 (row.drop 8)
termination_by row.length
decreasing_by
  simp only [List.length_drop]
  cases row with
  | nil => simp_all
  | cons a t => simp; omega

/-- PIL `tobytes()` on a mode-"1" image: rows packed back-to-back, each row
padded to a whole byte. -/
def tobytes (img : PilImage) : List Nat :=
  img.px.foldr (fun row acc => (groups8 row).map pack8 ++ acc) []

/-- Bitmap bytes put on the wire for an image:
`image.convert("1").rotate(180).tobytes()` (`convert("1")` is the identity
on the mode-"1" images this pipeline produces). -/
def imagePayload (img : PilImage) : List Nat :=
  tobytes (rotate180 img)

/-- One entry of `self.image_buffer`: `{"x": x, "y": y, "image": image.copy()}`. -/
structure ImgPart where
  x : Int
  y : Int
  image : PilImage
deriving Repr, DecidableEq

/-- Outbound traffic: a newline-terminated text command
(`send_to_device`) or one chunk of binary data (`ser.write(data[i:j])`). -/
inductive TxEvent where
  | line (s : String) : TxEvent
  | chunk (bytes : List Nat) : TxEvent
deriving Repr, DecidableEq

/-- Chunking loop of `send_binary_to_device` (lines 65-72): slices
`data[0:100], data[100:200], ...` while the start index is in range. -/
def sendChunks (data : List Nat) : List (List Nat) :=
  if data.isEmpty then []
  else data.take 100 :: sendChunks (data.drop 100)
termination_by data.length
decreasing_by
  simp only [List.length_drop]
  cases data with
  | nil => simp_all
  | cons a t => simp; omega

/-- Display-region header command sent by `send_image` (line 173):
`DISPLAY + " " + str(x) + " " + str(y) + " " + str(w) + " " + str(h)`. -/
def displayHeader (x y : Int) (img : PilImage) : String :=
  cmdDisplay ++ " " ++ toString x ++ " " ++ toString y ++ " " ++
    toString img.w ++ " " ++ toString img.h

/-- Wire traffic produced for one image region: the header command followed
by the chunked bitmap payload. -/
def sendImageTx (x y : Int) (img : PilImage) : List TxEvent :=
  .line (displayHeader x y img) :: (sendChunks (imagePayload img)).map .chunk

/-- `Device.send_image` (lines 164-175): append a copy of the region to
`image_buffer`, emit the header command and the chunked payload. -/
def send_image (x y : Int) (img : PilImage) (buf : List ImgPart) :
    List ImgPart × List TxEvent :=
  (buf ++ [⟨x, y, img⟩], sendImageTx x y img)

/-- `Device.resend_image_data` (lines 177-191): replay every buffered region
in insertion order, then clear the buffer. -/
def resend_image_data (buf : List ImgPart) : List ImgPart × List TxEvent :=
  ([], buf.foldr (fun p acc => sendImageTx p.x p.y p.image ++ acc) [])

/-- `Device.update_display` (lines 199-235): send the refresh command, await
a literal "ok" under the timeout; on success, if `buffer_data` is set,
resend the buffered regions (which clears the buffer), send the
refresh-off command and await a second "ok" with a freshly started clock
but the same timeout.  Returns the python result (`None` falls off the end,
`False` on either timeout), the resulting `image_buffer`, and the traffic. -/
def update_display (full_refresh : Bool) (timeout : Nat) (buffer_data : Bool)
    (buf : List ImgPart) (input : List (Option String)) :
    Option Bool × List ImgPart × List TxEvent :=
  let cmd1 := TxEvent.line (cmdRefresh ++ " " ++ (if full_refresh then refreshFull else refreshPart))
  let s1 := awaitLine timeout "ok" (popLine input).1 (popLine input).2 0
  if s1.1 then
    if buffer_data then
      let rtx := (resend_image_data buf).2
      let cmdOff := TxEvent.line (cmdRefresh ++ " " ++ refreshOff)
      let s2 := awaitLine timeout "ok" (popLine s1.2.1).1 (popLine s1.2.1).2 0
      if s2.1 then (none, (resend_image_data buf).1, cmd1 :: rtx ++ [cmdOff])
      else (some false, (resend_image_data buf).1, cmd1 :: rtx ++ [cmdOff])
    else (none, buf, [cmd1])
  else (some false, buf, [cmd1])

/-!
LED fade engine (device.py `set_leds` 330-337, `fade_leds` 339-351).
Colors are python ints (24-bit RGB values); time is rational seconds.
`send_led` serializes each color as six hex digits; the claims concern the
color values, so the commanded frame is modelled as the list of values
(`none` = no `send_led` call).
-/

/-- Device state read and written by the fade engine:
`self.led_state` and `self.led_set_time`. -/
structure LedState where
  led_state : Option (List Nat)
  led_set_time : ℚ
deriving DecidableEq

/-- `Device.set_leds` (330-337): record the frame and its timestamp
(the commanded colors are the frame itself). -/
def set_leds (t : ℚ) (leds : List Nat) : LedState × List Nat :=
  (⟨some leds, t⟩, leds)

/-- Per-color dimming expression of `fade_leds` (line 349):
`(int((i & 0xff0000) * p) & 0xff0000) | (int((i & 0xff00) * p) & 0xff00) |
(int((i & 0xff) * p) & 0xff)`; python `int()` truncates, which is the floor
for the non-negative operands of the fading branch. -/
def dimColor (p : ℚ) (i : Nat) : Nat :=
  ((Int.toNat ⌊((i &&& 0xff0000 : Nat) : ℚ) * p⌋) &&& 0xff0000) |||
  ((Int.toNat ⌊((i &&& 0xff00 : Nat) : ℚ) * p⌋) &&& 0xff00) |||
  ((Int.toNat ⌊((i &&& 0xff : Nat) : ℚ) * p⌋) &&& 0xff)

/-- Per-channel scaling with integer truncation, as the spec words it: each
8-bit channel is extracted, scaled by `p`, truncated, and reassembled. -/
def scaleChannels (p : ℚ) (i : Nat) : Nat :=
  ((Int.toNat ⌊(((i >>> 16) &&& 0xff : Nat) : ℚ) * p⌋) <<< 16) |||
  ((Int.toNat ⌊(((i >>> 8) &&& 0xff : Nat) : ℚ) * p⌋) <<< 8) |||
  (Int.toNat ⌊((i &&& 0xff : Nat) : ℚ) * p⌋)

/-- `Device.fade_leds` (339-351): no-op without a stored frame; otherwise
`p = (3.5 - (now - led_set_time)) / 0.5`; hold while `p >= 1`, clear and
command all-zero once `p <= 0`, else command the dimmed frame leaving the
stored state untouched. -/
def fade_leds (num_of_leds : Nat) (st : LedState) (now : ℚ) :
    LedState × Option (List Nat) :=
  match st.led_state with
  | none => (st, none)
  | some leds =>
    let p : ℚ := (35/10 - (now - st.led_set_time)) / (5/10)
    if 1 ≤ p then (st, none)
    else if p ≤ 0 then (⟨none, st.led_set_time⟩, some (List.replicate num_of_leds 0))
    else (st, some (leds.map (dimColor p)))

/-!
Mode selection (controller.py `work`, lines 70-73 and 89-92) and the mode
transition (lines 92-101).  A rule is a python dict with a `"mode"` entry
and optionally `"process"` and/or `"activeWindow"` entries; the compiled
regex is modelled as its match predicate on the window title.
-/

/-- One entry of the `modes` rule list. -/
structure ModeRule (μ : Type) where
  mode : μ
  process : Option String
  activeWindow : Option (String → Bool)

/-- `if_matching_mode` (lines 70-73): process-name membership, or
window-title pattern match, or no predicate at all (fallback). -/
def if_matching_mode {μ : Type} (processes : List String) (active_window : String)
    (r : ModeRule μ) : Bool :=
  (match r.process with
   | some p => processes.contains p
   | none => false) ||
  (match r.activeWindow with
   | some pat => pat active_window
   | none => false) ||
  (r.process.isNone && r.activeWindow.isNone)

/-- Mode selection (line 90): `list(filter(if_matching_mode, modes))[0]`,
i.e. the head of the filtered list (`none` if no rule matches, where python
would raise IndexError). -/
def first_matching_mode {μ : Type} (processes : List String) (active_window : String)
    (rules : List (ModeRule μ)) : Option (ModeRule μ) :=
  (rules.filter (if_matching_mode processes active_window)).head?

/-!
Mode transition (controller.py 92-101).  Registered callbacks are the
entries of `device.callbacks`, tagged with the identity of the mode that
registered them; every mode's `deactivate` is `ModeBase.deactivate`
(modes.py 35-41, no mode overrides it), which calls
`device.clear_callbacks()`.  A mode's `activate` registers its callbacks
via `device.register_callback` (dict assignment, overwriting the key).
-/

/-- A mode as the transition sees it: an identity and the callback keys its
`activate` registers. -/
structure ModeSpec where
  id : Nat
  regs : List String
deriving DecidableEq

/-- `Device.register_callback` (100-101): `self.callbacks[key] = cb`,
tagged with the registering mode. -/
def register_callback (cbs : List (String × Nat)) (key : String) (owner : Nat) :
    List (String × Nat) :=
  (key, owner) :: cbs.filter fun kv => kv.1 ≠ key

/-- `ModeBase.deactivate` (modes.py 35-41): `device.clear_callbacks()`. -/
def clear_callbacks : List (String × Nat) :=
  []

/-- Effect of a mode's `activate` on the callback table. -/
def activateMode (m : ModeSpec) (cbs : List (String × Nat)) : List (String × Nat) :=
  m.regs.foldl (fun acc k => register_callback acc k m.id) cbs

/-- Observable steps of the mode-switch branch, in program order. -/
inductive TickEvent where
  | deactivateEv (id : Nat) : TickEvent
  | ledAnimation : TickEvent
  | resetDisp : TickEvent
  | activateEv (id : Nat) : TickEvent
deriving Repr, DecidableEq

/-- Mode-switch branch of the Running loop (controller.py 92-101): when the
selected mode differs from the current one, deactivate the old mode (which
clears all callbacks), flash the LED acknowledgment, reset the display,
then activate the new mode. -/
def mode_transition (old : Option ModeSpec) (new : ModeSpec)
    (cbs : List (String × Nat)) : List TickEvent × List (String × Nat) :=
  match old with
  | some m =>
    ([.deactivateEv m.id, .ledAnimation, .resetDisp, .activateEv new.id],
     activateMode new clear_callbacks)
  | none => ([.activateEv new.id], activateMode new cbs)

/-!
Frame-budget sleep (controller.py 114-117):

    # Sleep until 1/30 sec have passed as there is no need to exceed 30 FPS
    time_to_30_fps = time.time() - now + 0.0333
    if time_to_30_fps > 0:
        time.sleep(time_to_30_fps)

`elapsed` is `time.time() - now`, the time the tick consumed.
-/

/-- The sleep amount computed at line 115: `time.time() - now + 0.0333`. -/
def time_to_30_fps (elapsed : ℚ) : ℚ :=
  elapsed + 333/10000

/-- Duration actually slept at the end of a tick (lines 116-117): the
computed amount when positive, otherwise nothing. -/
def tickSleep (elapsed : ℚ) : ℚ :=
  if 0 < time_to_30_fps elapsed then time_to_30_fps elapsed else 0

/-- Follows the claim's words: the remainder of the 1/30-second frame
budget, never negative. -/
def claimedFrameSleep (elapsed : ℚ) : ℚ :=
  max (333/10000 - elapsed) 0

/-!
Theorems.
-/

/-- C2: the code at controller.py:115 computes `time.time() - now + 0.0333`,
the tick's elapsed time PLUS the frame budget, where its own comment ("Sleep
until 1/30 sec have passed") and the spec call for the remainder of the
budget.  At a tick that consumed 0.01 s the code sleeps 0.0433 s instead of
the claimed 0.0233 s, and at a tick that overran the budget (0.1 s) it
sleeps 0.1333 s instead of proceeding immediately. -/
theorem frame_sleep_code_bug :
    tickSleep (1/100) = 433/10000 ∧ claimedFrameSleep (1/100) = 233/10000 ∧
    tickSleep (1/100) ≠ claimedFrameSleep (1/100) ∧
    tickSleep (1/10) = 1333/10000 ∧ claimedFrameSleep (1/10) = 0 ∧
    tickSleep (1/10) ≠ claimedFrameSleep (1/10) := by
  refine ⟨?_, ?_, ?_, ?_, ?_, ?_⟩ <;>
    norm_num [tickSleep, time_to_30_fps, claimedFrameSleep]

/-- C4 counterexample: a received carriage-return byte (0x0D) contributes no
character to the line buffer — `read_from_device` strips it with
`.replace('\r', '')` — so a byte sequence does not round-trip to exactly one
character per byte. -/
theorem transport_cr_counterexample :
    ¬ ((appendedChars [13]).length = [(13 : Nat)].length) := by
  decide

set_option maxRecDepth 40000 in
/-- Auxiliary: on every byte value, the ISO-8859-16 table sends 10 and only
10 to the newline character and 13 and only 13 to the carriage return. -/
theorem decodeByte_ctrl : ∀ x : Fin 256,
    (decodeByte x = '\n' ↔ (x : Nat) = 10) ∧
    (decodeByte x = '\r' ↔ (x : Nat) = 13) := by
  decide

/-- C4 (amended): the decode step is 8-bit transparent — every received
byte, whatever its value, decodes to exactly one character — but
`read_from_device` then strips carriage returns, so the buffer gains one
character per non-0x0D byte; byte 0x0A is the only byte decoding to the
line terminator, so splitting on newline is unaffected by other payload
bytes. -/
theorem transport_decode_amended (bs : List Nat) (h : ∀ b ∈ bs, b < 256) :
    (decodeBytes bs).length = bs.length ∧
    (appendedChars bs).length = (bs.filter fun b => b ≠ 13).length ∧
    (∀ b ∈ bs, (decodeByte b = '\n' ↔ b = 10) ∧ (decodeByte b = '\r' ↔ b = 13)) := by
  refine ⟨List.length_map _ _, ?_, ?_⟩
  · unfold appendedChars decodeBytes
    rw [List.filter_map]
    rw [List.length_map]
    congr 1
    apply List.filter_congr
    intro b hb
    have h13 := (decodeByte_ctrl ⟨b, h b hb⟩).2
    simp only [Function.comp_apply, decide_eq_decide]
    exact not_congr h13
  · intro b hb
    exact decodeByte_ctrl ⟨b, h b hb⟩

/-- Witness for transport_decode_amended at the bytes 10, 13, 65. -/
theorem transport_decode_amended_witness :
    (∀ b ∈ [(10 : Nat), 13, 65], b < 256) ∧
    ((decodeBytes [10, 13, 65]).length = [(10 : Nat), 13, 65].length ∧
     (appendedChars [10, 13, 65]).length =
       (([(10 : Nat), 13, 65]).filter fun b => b ≠ 13).length ∧
     (∀ b ∈ [(10 : Nat), 13, 65],
       (decodeByte b = '\n' ↔ b = 10) ∧ (decodeByte b = '\r' ↔ b = 13))) :=
  ⟨by decide, transport_decode_amended [10, 13, 65] (by decide)⟩

/-- C3 counterexample: a line consisting of exactly the jog key code (here
just the character) with nothing registered is not dropped: the python
condition evaluates `input[1]` on a length-1 string and raises IndexError
instead of falling through to discrete-code matching. -/
theorem poll_jog_only_counterexample :
    pollClassify 'R' [] (String.mk ['R']) = PollAction.indexError ∧
    pollClassify 'R' [] (String.mk ['R']) ≠ PollAction.noHandler := by
  constructor
  · rfl
  · intro hc
    exact absurd hc (by decide)

/-- C3 (amended): for a line `jog ++ digits` or `jog ++ '-' ++ digits` the
registered jog handler receives exactly the (signed) parsed integer; for a
line of length at least two starting with the jog code whose remainder is
malformed, classification falls through to discrete-code matching (handler
called on an exact match, otherwise dropped); a line not starting with the
jog code goes straight to discrete matching; but a line that is exactly the
jog code character raises IndexError rather than being dropped. -/
theorem poll_dispatch_amended (jog : Char) (reg : List String)
    (ds rest2 : List Char) (c c1 : Char) :
    (isDecimalChars ds = true → String.mk [jog] ∈ reg →
      pollClassify jog reg (String.mk (jog :: ds)) = .jog (digitsVal ds)) ∧
    (isDecimalChars ds = true → String.mk [jog] ∈ reg →
      pollClassify jog reg (String.mk (jog :: '-' :: ds)) = .jog (-(digitsVal ds : Int))) ∧
    (isDecimalChars (c1 :: rest2) = false → (c1 = '-' ∧ isDecimalChars rest2 = true → False) →
      pollClassify jog reg (String.mk (jog :: c1 :: rest2)) =
        (if String.mk (jog :: c1 :: rest2) ∈ reg
         then .key (String.mk (jog :: c1 :: rest2)) else .noHandler)) ∧
    (c ≠ jog →
      pollClassify jog reg (String.mk (c :: rest2)) =
        (if String.mk (c :: rest2) ∈ reg
         then .key (String.mk (c :: rest2)) else .noHandler)) ∧
    pollClassify jog reg (String.mk [jog]) = .indexError := by
  refine ⟨?_, ?_, ?_, ?_, ?_⟩
  · intro hds hreg
    simp [pollClassify, hds, hreg]
  · intro hds hreg
    have hdash : ('0' ≤ '-') = false := by decide
    have hnot : isDecimalChars ('-' :: ds) = false := by
      simp [isDecimalChars, List.all_cons, hdash]
    simp [pollClassify, hnot, hds, hreg]
  · intro hmal hnsign
    have hsplit : (c1 = '-' && isDecimalChars rest2) = false := by
      by_cases hc1 : c1 = '-'
      · have : isDecimalChars rest2 = false := by
          by_contra hh
          exact hnsign ⟨hc1, by simpa using hh⟩
        simp [hc1, this]
      · simp [hc1]
    simp [pollClassify, hmal, hsplit]
  · intro hc
    simp [pollClassify, hc]
  · simp [pollClassify, isDecimalChars]

/-- Witness for poll_dispatch_amended: jog code `R`, handlers registered for
the jog key and the discrete code `Rx`, concrete lines `R42`, `R-7`, `Rx`,
`ok`, `R`. -/
theorem poll_dispatch_witness :
    pollClassify 'R' [String.mk ['R'], String.mk ['R', 'x']] (String.mk ['R', '4', '2']) =
      .jog 42 ∧
    pollClassify 'R' [String.mk ['R'], String.mk ['R', 'x']] (String.mk ['R', '-', '7']) =
      .jog (-7) ∧
    pollClassify 'R' [String.mk ['R'], String.mk ['R', 'x']] (String.mk ['R', 'x']) =
      (if String.mk ['R', 'x'] ∈ [String.mk ['R'], String.mk ['R', 'x']]
       then PollAction.key (String.mk ['R', 'x']) else PollAction.noHandler) ∧
    pollClassify 'R' [String.mk ['R'], String.mk ['R', 'x']] (String.mk ['o', 'k']) =
      (if String.mk ['o', 'k'] ∈ [String.mk ['R'], String.mk ['R', 'x']]
       then PollAction.key (String.mk ['o', 'k']) else PollAction.noHandler) ∧
    pollClassify 'R' [String.mk ['R'], String.mk ['R', 'x']] (String.mk ['R']) =
      PollAction.indexError := by
  have hA := poll_dispatch_amended 'R' [String.mk ['R'], String.mk ['R', 'x']]
    ['4', '2'] [] 'o' 'x'
  have hB := poll_dispatch_amended 'R' [String.mk ['R'], String.mk ['R', 'x']]
    ['7'] [] 'o' 'x'
  have hC := poll_dispatch_amended 'R' [String.mk ['R'], String.mk ['R', 'x']]
    ['7'] [] 'o' 'x'
  have hD := poll_dispatch_amended 'R' [String.mk ['R'], String.mk ['R', 'x']]
    ['7'] ['k'] 'o' 'x'
  refine ⟨?_, ?_, ?_, ?_, hA.2.2.2.2⟩
  · exact hA.1 (by decide) (by decide)
  · exact hB.2.1 (by decide) (by decide)
  · exact hC.2.2.1 (by decide) (by decide)
  · exact hD.2.2.2.1 (by decide)

/-- Auxiliary: every callback present after a mode's `activate` ran on a
table whose entries it owns is owned by that mode. -/
theorem foldl_register_owner (regs : List String) (i : Nat)
    (cbs : List (String × Nat)) (h : ∀ kv ∈ cbs, kv.2 = i) :
    ∀ kv ∈ regs.foldl (fun acc k => register_callback acc k i) cbs, kv.2 = i := by
  induction regs generalizing cbs with
  | nil => exact h
  | cons r rs ih =>
    simp only [List.foldl_cons]
    apply ih
    intro kv hkv
    simp only [register_callback, List.mem_cons] at hkv
    rcases hkv with h1 | h2
    · rw [h1]
    · exact h kv (List.mem_of_mem_filter h2)

/-- C8: in the mode-switch branch of the Running loop, the outgoing mode's
`deactivate` — which clears the whole callback table — runs strictly before
the incoming mode's `activate`, and every callback installed afterwards is
owned by the incoming mode, so no handler registered by the previous mode
survives the transition. -/
theorem mode_transition_clears (m new : ModeSpec) (cbs : List (String × Nat))
    (hne : m.id ≠ new.id) :
    (mode_transition (some m) new cbs).1 =
      [.deactivateEv m.id, .ledAnimation, .resetDisp, .activateEv new.id] ∧
    clear_callbacks = ([] : List (String × Nat)) ∧
    (∀ kv ∈ (mode_transition (some m) new cbs).2, kv.2 = new.id) ∧
    (∀ kv ∈ (mode_transition (some m) new cbs).2, kv.2 ≠ m.id) := by
  have hown : ∀ kv ∈ (mode_transition (some m) new cbs).2, kv.2 = new.id := by
    simp only [mode_transition, activateMode]
    exact foldl_register_owner new.regs new.id clear_callbacks (by simp [clear_callbacks])
  refine ⟨rfl, rfl, hown, ?_⟩
  intro kv hkv
  rw [hown kv hkv]
  exact fun hc => hne hc.symm

/-- Witness for mode_transition_clears: transition from mode 1 (a stale
callback of which is installed) to mode 2 registering one key. -/
theorem mode_transition_clears_witness :
    (1 : Nat) ≠ 2 ∧
    ((mode_transition (some ⟨1, [String.mk ['a']]⟩) ⟨2, [String.mk ['b']]⟩
        [(String.mk ['a'], 1)]).1 =
      [.deactivateEv 1, .ledAnimation, .resetDisp, .activateEv 2] ∧
     clear_callbacks = ([] : List (String × Nat)) ∧
     (∀ kv ∈ (mode_transition (some ⟨1, [String.mk ['a']]⟩) ⟨2, [String.mk ['b']]⟩
        [(String.mk ['a'], 1)]).2, kv.2 = 2) ∧
     (∀ kv ∈ (mode_transition (some ⟨1, [String.mk ['a']]⟩) ⟨2, [String.mk ['b']]⟩
        [(String.mk ['a'], 1)]).2, kv.2 ≠ 1)) :=
  ⟨by decide,
   mode_transition_clears ⟨1, [String.mk ['a']]⟩ ⟨2, [String.mk ['b']]⟩
     [(String.mk ['a'], 1)] (by decide)⟩

/-- Auxiliary: the head of a filtered list is the first element satisfying
the predicate, whenever some element satisfies it. -/
theorem filter_head_first {α : Type} (p : α → Bool) (l : List α)
    (hx : ∃ x ∈ l, p x = true) :
    ∃ r l1 l2, (l.filter p).head? = some r ∧ l = l1 ++ r :: l2 ∧ p r = true ∧
      ∀ x ∈ l1, p x = false := by
  induction l with
  | nil => simp at hx
  | cons a t ih =>
    by_cases hpa : p a = true
    · exact ⟨a, [], t, by simp [List.filter_cons, hpa], rfl, hpa, by simp⟩
    · have hpaf : p a = false := by simpa using hpa
      have hxt : ∃ x ∈ t, p x = true := by
        rcases hx with ⟨x, hxm, hxp⟩
        rcases List.mem_cons.mp hxm with rfl | hmt
        · exact absurd hxp hpa
        · exact ⟨x, hmt, hxp⟩
      obtain ⟨r, l1, l2, h1, h2, h3, h4⟩ := ih hxt
      refine ⟨r, a :: l1, l2, ?_, by simp [h2], h3, ?_⟩
      · simpa [List.filter_cons, hpaf] using h1
      · intro x hxm
        rcases List.mem_cons.mp hxm with rfl | hmt
        · exact hpaf
        · exact h4 x hmt

/-- C7: with an ordered rule list ending in a predicate-free fallback,
`first_matching_mode` selects the first rule whose predicate matches
(everything before it fails to match), and when no predicate of the
preceding rules matches it selects the fallback. -/
theorem mode_selection_first_match {μ : Type} (pre : List (ModeRule μ))
    (fb : ModeRule μ) (procs : List String) (aw : String)
    (hp : fb.process = none) (hw : fb.activeWindow = none) :
    (∃ r l1 l2, first_matching_mode procs aw (pre ++ [fb]) = some r ∧
      pre ++ [fb] = l1 ++ r :: l2 ∧
      if_matching_mode procs aw r = true ∧
      ∀ x ∈ l1, if_matching_mode procs aw x = false) ∧
    ((∀ x ∈ pre, if_matching_mode procs aw x = false) →
      first_matching_mode procs aw (pre ++ [fb]) = some fb) := by
  have hfb : if_matching_mode procs aw fb = true := by
    simp [if_matching_mode, hp, hw]
  constructor
  · exact filter_head_first _ _ ⟨fb, by simp, hfb⟩
  · intro hall
    have hfilter : pre.filter (if_matching_mode procs aw) = [] := by
      rw [List.filter_eq_nil_iff]
      intro x hxm
      simp [hall x hxm]
    unfold first_matching_mode
    rw [List.filter_append, hfilter]
    simp [List.filter_cons, hfb]

/-- Witness for mode_selection_first_match: one regex rule for windows whose
title is exactly `gimp`, a fallback, a foreground window titled `Zoom` that
matches neither; the fallback is selected. -/
theorem mode_selection_witness :
    (ModeRule.process ⟨(0 : Nat), none, none⟩ = none) ∧
    (ModeRule.activeWindow ⟨(0 : Nat), none, none⟩ = none) ∧
    ((∃ r l1 l2,
      first_matching_mode [] (String.mk ['Z', 'o', 'o', 'm'])
        ([(⟨1, none, some fun s => s = String.mk ['g', 'i', 'm', 'p']⟩ : ModeRule Nat)] ++
          [⟨0, none, none⟩]) = some r ∧
      ([(⟨1, none, some fun s => s = String.mk ['g', 'i', 'm', 'p']⟩ : ModeRule Nat)] ++
          [⟨0, none, none⟩]) = l1 ++ r :: l2 ∧
      if_matching_mode [] (String.mk ['Z', 'o', 'o', 'm']) r = true ∧
      ∀ x ∈ l1, if_matching_mode [] (String.mk ['Z', 'o', 'o', 'm']) x = false) ∧
    ((∀ x ∈ [(⟨1, none, some fun s => s = String.mk ['g', 'i', 'm', 'p']⟩ : ModeRule Nat)],
        if_matching_mode [] (String.mk ['Z', 'o', 'o', 'm']) x = false) →
      first_matching_mode [] (String.mk ['Z', 'o', 'o', 'm'])
        ([(⟨1, none, some fun s => s = String.mk ['g', 'i', 'm', 'p']⟩ : ModeRule Nat)] ++
          [⟨0, none, none⟩]) = some ⟨0, none, none⟩)) :=
  ⟨rfl, rfl,
   mode_selection_first_match
     [(⟨1, none, some fun s => s = String.mk ['g', 'i', 'm', 'p']⟩ : ModeRule Nat)]
     ⟨0, none, none⟩ [] (String.mk ['Z', 'o', 'o', 'm']) rfl rfl⟩

/-- Auxiliary: the chunks written by `send_binary_to_device` concatenate
back to the data. -/
theorem sendChunks_join (d : List Nat) : (sendChunks d).flatten = d := by
  rw [sendChunks]
  by_cases hd : d.isEmpty
  · rw [List.isEmpty_iff] at hd
    simp [hd]
  · have ih := sendChunks_join (d.drop 100)
    simp [hd, ih]
termination_by d.length
decreasing_by
  simp only [List.length_drop]
  cases d with
  | nil => simp_all
  | cons a t => simp; omega

/-- Auxiliary: every chunk holds at most 100 bytes. -/
theorem sendChunks_len_le (d : List Nat) : ∀ c ∈ sendChunks d, c.length ≤ 100 := by
  rw [sendChunks]
  by_cases hd : d.isEmpty
  · simp [hd]
  · have ih := sendChunks_len_le (d.drop 100)
    intro c hc
    simp only [hd, if_false, Bool.false_eq_true, List.mem_cons] at hc
    rcases hc with rfl | hmem
    · simp only [List.length_take]
      exact Nat.min_le_left 100 d.length
    · exact ih c hmem
termination_by d.length
decreasing_by
  simp only [List.length_drop]
  cases d with
  | nil => simp_all
  | cons a t => simp; omega

/-- Auxiliary: no chunks are produced exactly for empty data. -/
theorem sendChunks_eq_nil_iff (d : List Nat) : sendChunks d = [] ↔ d = [] := by
  rw [sendChunks]
  by_cases hd : d.isEmpty
  · rw [List.isEmpty_iff] at hd
    simp [hd]
  · have : d ≠ [] := by
      rw [List.isEmpty_iff] at hd
      exact hd
    simp [List.isEmpty_iff, this, hd]

/-- Auxiliary: every chunk except possibly the last holds exactly 100
bytes. -/
theorem sendChunks_dropLast (d : List Nat) :
    ∀ c ∈ (sendChunks d).dropLast, c.length = 100 := by
  rw [sendChunks]
  by_cases hd : d.isEmpty
  · simp [hd]
  · have ih := sendChunks_dropLast (d.drop 100)
    by_cases hrest : sendChunks (d.drop 100) = []
    · simp [hd, hrest]
    · intro c hc
      simp only [hd, if_false, Bool.false_eq_true,
        List.dropLast_cons_of_ne_nil hrest, List.mem_cons] at hc
      rcases hc with rfl | hmem
      · have hdrop : d.drop 100 ≠ [] := by
          intro hnil
          exact hrest (by rw [hnil, sendChunks]; simp)
        simp only [ne_eq, List.drop_eq_nil_iff] at hdrop
        simp only [List.length_take]
        omega
      · exact ih c hmem
termination_by d.length
decreasing_by
  all_goals simp only [List.length_drop]
  all_goals cases d with
  | nil => simp_all
  | cons a t => simp; omega

/-- Auxiliary: pulling the accumulator out of the resend fold. -/
theorem foldr_tx_acc (g : ImgPart → List TxEvent) (l : List ImgPart)
    (acc : List TxEvent) :
    l.foldr (fun p a => g p ++ a) acc = l.foldr (fun p a => g p ++ a) [] ++ acc := by
  induction l with
  | nil => simp
  | cons p t ih => simp [ih]

/-- Auxiliary: the resend fold is a flat map over the buffer in insertion
order. -/
theorem foldr_append_eq_flatMap {α β : Type} (g : α → List β) (l : List α) :
    l.foldr (fun p acc => g p ++ acc) [] = l.flatMap g := by
  induction l with
  | nil => rfl
  | cons a tl ih => simp [List.flatMap_cons, ih]

/-- Auxiliary: resending a buffer extended with one more region replays the
old buffer and then that region. -/
theorem resend_snoc (buf : List ImgPart) (p : ImgPart) :
    (resend_image_data (buf ++ [p])).2 =
      (resend_image_data buf).2 ++ sendImageTx p.x p.y p.image := by
  unfold resend_image_data
  rw [List.foldr_append]
  simp only [List.foldr_cons, List.foldr_nil, List.append_nil]
  exact foldr_tx_acc _ buf _

/-- C9: a region sent by `send_image` and later replayed by
`resend_image_data` produces byte-identical output — the same display
header command and the same bitmap bytes, chunked in fixed 100-byte pieces
(every chunk but the last is exactly 100 bytes) whose concatenation is the
bitmap data. -/
theorem image_roundtrip (x y : Int) (img : PilImage) (buf : List ImgPart) :
    (resend_image_data ((send_image x y img buf).1)).2 =
      (resend_image_data buf).2 ++ sendImageTx x y img ∧
    (send_image x y img buf).2 =
      .line (displayHeader x y img) :: (sendChunks (imagePayload img)).map .chunk ∧
    (sendChunks (imagePayload img)).flatten = imagePayload img ∧
    (∀ c ∈ sendChunks (imagePayload img), c.length ≤ 100) ∧
    (∀ c ∈ (sendChunks (imagePayload img)).dropLast, c.length = 100) := by
  refine ⟨?_, rfl, sendChunks_join _, sendChunks_len_le _, sendChunks_dropLast _⟩
  exact resend_snoc buf ⟨x, y, img⟩

/-- Witness for image_roundtrip at a concrete 9-by-2 image with a non-empty
prior buffer. -/
theorem image_roundtrip_witness :
    (resend_image_data ((send_image 3 4
        ⟨9, 2, [[true, false, true, false, true, false, true, false, true],
                [false, true, false, true, false, true, false, true, false]]⟩
        [⟨0, 0, ⟨1, 1, [[true]]⟩⟩]).1)).2 =
      (resend_image_data [⟨0, 0, ⟨1, 1, [[true]]⟩⟩]).2 ++ sendImageTx 3 4
        ⟨9, 2, [[true, false, true, false, true, false, true, false, true],
                [false, true, false, true, false, true, false, true, false]]⟩ ∧
    (send_image 3 4
        ⟨9, 2, [[true, false, true, false, true, false, true, false, true],
                [false, true, false, true, false, true, false, true, false]]⟩
        [⟨0, 0, ⟨1, 1, [[true]]⟩⟩]).2 =
      .line (displayHeader 3 4
        ⟨9, 2, [[true, false, true, false, true, false, true, false, true],
                [false, true, false, true, false, true, false, true, false]]⟩) ::
        (sendChunks (imagePayload
        ⟨9, 2, [[true, false, true, false, true, false, true, false, true],
                [false, true, false, true, false, true, false, true, false]]⟩)).map .chunk ∧
    (sendChunks (imagePayload
        ⟨9, 2, [[true, false, true, false, true, false, true, false, true],
                [false, true, false, true, false, true, false, true, false]]⟩)).flatten =
      imagePayload
        ⟨9, 2, [[true, false, true, false, true, false, true, false, true],
                [false, true, false, true, false, true, false, true, false]]⟩ ∧
    (∀ c ∈ sendChunks (imagePayload
        ⟨9, 2, [[true, false, true, false, true, false, true, false, true],
                [false, true, false, true, false, true, false, true, false]]⟩),
        c.length ≤ 100) ∧
    (∀ c ∈ (sendChunks (imagePayload
        ⟨9, 2, [[true, false, true, false, true, false, true, false, true],
                [false, true, false, true, false, true, false, true, false]]⟩)).dropLast,
        c.length = 100) :=
  image_roundtrip 3 4
    ⟨9, 2, [[true, false, true, false, true, false, true, false, true],
            [false, true, false, true, false, true, false, true, false]]⟩
    [⟨0, 0, ⟨1, 1, [[true]]⟩⟩]

/-- Auxiliary: unfolding equation of `awaitLine` on an exhausted stream. -/
theorem awaitLine_nil (t : Nat) (target : String) (cur : Option String) (e : Nat) :
    awaitLine t target cur [] e =
      if cur = some target then (true, [], e)
      else (false, [], if t < e then e else t + 1) := rfl

/-- Auxiliary: unfolding equation of `awaitLine` on a pending stream. -/
theorem awaitLine_cons (t : Nat) (target : String) (cur l : Option String)
    (rest : List (Option String)) (e : Nat) :
    awaitLine t target cur (l :: rest) e =
      if cur = some target then (true, l :: rest, e)
      else if t < e then (false, l :: rest, e)
      else
        match cur with
        | none => awaitLine t target l rest (e + 1)
        | some _ => awaitLine t target l rest e := rfl

/-- Auxiliary: unfolding equation of `infoLoop` on a pending stream. -/
theorem infoLoop_cons (t : Nat) (cur l : Option String)
    (rest : List (Option String)) (e : Nat) (info : Info) :
    infoLoop t cur (l :: rest) e info =
      if cur = some "Done" then .ok (true, info)
      else if t < e then .ok (false, info)
      else
        (match cur with
         | none => infoLoop t l rest (e + 1) info
         | some s => do
           let info2 ← processInfoLine info s
           infoLoop t l rest e info2) := rfl

/-- Auxiliary: the wait loop succeeds at once when the pending line is the
awaited terminator. -/
theorem awaitLine_target_now (t : Nat) (target : String)
    (input : List (Option String)) (e : Nat) :
    awaitLine t target (some target) input e = (true, input, e) := by
  cases input <;> simp [awaitLine]

/-- Auxiliary: a pending non-terminator line is skipped without advancing
the clock (while the deadline has not passed). -/
theorem awaitLine_step_noise (t : Nat) (target u : String) (hu : u ≠ target)
    (x : Option String) (input : List (Option String)) (e : Nat) (he : ¬ t < e) :
    awaitLine t target (some u) (x :: input) e = awaitLine t target x input e := by
  simp [awaitLine, hu, he]

/-- Auxiliary: scanning through noise lines reaches the terminator with the
clock unchanged and leaves the rest of the stream pending. -/
theorem awaitLine_chain (t : Nat) (target : String) (e : Nat) (he : ¬ t < e)
    (pre rest : List (Option String))
    (hn : ∀ x ∈ pre, ∃ u, x = some u ∧ u ≠ target) :
    awaitLine t target (popLine (pre ++ some target :: rest)).1
      (popLine (pre ++ some target :: rest)).2 e = (true, rest, e) := by
  induction pre with
  | nil => simpa [popLine] using awaitLine_target_now t target rest e
  | cons x pre ih =>
    obtain ⟨u, rfl, hu⟩ := hn x (List.mem_cons_self x pre)
    simp only [List.cons_append, popLine]
    rcases hpre : pre ++ some target :: rest with _ | ⟨y, l⟩
    · exact absurd hpre (by simp)
    · rw [awaitLine_step_noise t target u hu y l e he]
      have hrec := ih fun z hz => hn z (List.mem_cons_of_mem _ hz)
      rw [hpre] at hrec
      simpa [popLine] using hrec

/-- Auxiliary: if the terminator never occurs in the stream, the wait loop
reports failure. -/
theorem awaitLine_no_target (t : Nat) (target : String) :
    ∀ (input : List (Option String)) (cur : Option String) (e : Nat),
      cur ≠ some target → (∀ x ∈ input, x ≠ some target) →
      (awaitLine t target cur input e).1 = false := by
  intro input
  induction input with
  | nil =>
    intro cur e hc _
    simp [awaitLine, hc]
  | cons l rest ih =>
    intro cur e hc hin
    rw [awaitLine_cons]
    rw [if_neg hc]
    by_cases hte : t < e
    · simp [hte]
    · rw [if_neg hte]
      have hl : l ≠ some target := hin l (List.mem_cons_self l rest)
      have hrest : ∀ x ∈ rest, x ≠ some target :=
        fun x hx => hin x (List.mem_cons_of_mem _ hx)
      cases cur with
      | none => exact ih l (e + 1) hl hrest
      | some u => exact ih l e hl hrest

/-- C5: for a stream of arbitrary noise lines, then the `Inkkeys` header,
then `N_LED 16`, `DISP_W 200`, `DISP_H 100`, `Done`, the handshake returns
`True` with led count 16, display width 200, display height 100 (remaining
fields at their initial values); when the header never arrives the
handshake returns `False` with the capability fields untouched, and
likewise when the header arrives but the `Done` terminator never does. -/
theorem handshake_capabilities (t : Nat) (noise : List (Option String))
    (hn : ∀ x ∈ noise, ∃ u, x = some u ∧ u ≠ "Inkkeys") :
    request_info t (noise ++ [some "Inkkeys", some "N_LED 16", some "DISP_W 200",
      some "DISP_H 100", some "Done"]) = .ok (true, ⟨false, 16, 200, 100, 0⟩) ∧
    (∀ input : List (Option String), (∀ x ∈ input, x ≠ some "Inkkeys") →
      request_info t input = .ok (false, initInfo)) ∧
    request_info t (noise ++ [some "Inkkeys"]) = .ok (false, initInfo) := by
  have hnz : ¬ t < 0 := Nat.not_lt_zero t
  refine ⟨?_, ?_, ?_⟩
  · have hchain := awaitLine_chain t "Inkkeys" 0 hnz noise
      [some "N_LED 16", some "DISP_W 200", some "DISP_H 100", some "Done"] hn
    rw [show noise ++ [some "Inkkeys", some "N_LED 16", some "DISP_W 200",
        some "DISP_H 100", some "Done"] = noise ++ some "Inkkeys" ::
        [some "N_LED 16", some "DISP_W 200", some "DISP_H 100", some "Done"] from rfl]
    unfold request_info
    rw [hchain]
    simp only [popLine]
    rw [if_pos trivial]
    simp only [infoLoop_cons, infoLoop, hnz, if_false]
    rfl
  · intro input hin
    unfold request_info
    have hfail : (awaitLine t "Inkkeys" (popLine input).1 (popLine input).2 0).1 = false := by
      cases input with
      | nil => simp [popLine, awaitLine]
      | cons x rest =>
        exact awaitLine_no_target t "Inkkeys" rest x 0
          (hin x (List.mem_cons_self x rest)) (fun z hz => hin z (List.mem_cons_of_mem _ hz))
    rw [if_neg (by rw [hfail]; exact Bool.false_ne_true)]
  · have hchain := awaitLine_chain t "Inkkeys" 0 hnz noise [] hn
    rw [show noise ++ [some "Inkkeys"] = noise ++ some "Inkkeys" :: [] from rfl]
    unfold request_info
    rw [hchain]
    simp [popLine, infoLoop, initInfo]

/-- Witness for handshake_capabilities with two boot-noise lines. -/
theorem handshake_capabilities_witness :
    (∀ x ∈ [some (String.mk ['h', 'i']), some (String.mk ['y', 'o'])],
      ∃ u, x = some u ∧ u ≠ "Inkkeys") ∧
    (request_info 30 ([some (String.mk ['h', 'i']), some (String.mk ['y', 'o'])] ++
      [some "Inkkeys", some "N_LED 16", some "DISP_W 200", some "DISP_H 100",
       some "Done"]) = .ok (true, ⟨false, 16, 200, 100, 0⟩) ∧
    (∀ input : List (Option String), (∀ x ∈ input, x ≠ some "Inkkeys") →
      request_info 30 input = .ok (false, initInfo)) ∧
    request_info 30 ([some (String.mk ['h', 'i']), some (String.mk ['y', 'o'])] ++
      [some "Inkkeys"]) = .ok (false, initInfo)) :=
  ⟨by decide,
   handshake_capabilities 30 [some (String.mk ['h', 'i']), some (String.mk ['y', 'o'])]
     (by decide)⟩

/-- C10: `update_display` returns `False` exactly when one of its two wait
loops times out — the first always, the second only when `buffer_data` was
set and the first succeeded — and on every other path it falls off the end
of the function, returning `None`, never `True`; so the result is falsy on
success as well as on failure. -/
theorem update_display_falsy (fr : Bool) (t : Nat) (bd : Bool)
    (buf : List ImgPart) (input : List (Option String)) :
    ((update_display fr t bd buf input).1 = none ∨
     (update_display fr t bd buf input).1 = some false) ∧
    ((update_display fr t bd buf input).1 = some false ↔
      ((awaitLine t "ok" (popLine input).1 (popLine input).2 0).1 = false ∨
       (bd = true ∧
        (awaitLine t "ok" (popLine input).1 (popLine input).2 0).1 = true ∧
        (awaitLine t "ok"
          (popLine (awaitLine t "ok" (popLine input).1 (popLine input).2 0).2.1).1
          (popLine (awaitLine t "ok" (popLine input).1 (popLine input).2 0).2.1).2 0).1 =
          false))) := by
  cases h1 : (awaitLine t "ok" (popLine input).1 (popLine input).2 0).1 with
  | false => simp [update_display, h1]
  | true =>
    cases hbd : bd with
    | false => simp [update_display, h1, hbd]
    | true =>
      cases h2 : (awaitLine t "ok"
          (popLine (awaitLine t "ok" (popLine input).1 (popLine input).2 0).2.1).1
          (popLine (awaitLine t "ok" (popLine input).1 (popLine input).2 0).2.1).2 0).1 with
      | false => simp [update_display, h1, hbd, h2]
      | true => simp [update_display, h1, hbd, h2]

/-- C1 counterexample: with one buffered region, a stream that delivers the
first "ok" and nothing else, and a zero timeout, `update_display` with
`buffer_data` reports failure for the missing second "ok" — but the image
buffer is empty, not non-empty: `resend_image_data` already cleared it
before the second wait began. -/
theorem update_display_buffer_dropped :
    (update_display true 0 true [⟨0, 0, ⟨1, 1, [[true]]⟩⟩] [some "ok"]).1 =
      some false ∧
    (update_display true 0 true [⟨0, 0, ⟨1, 1, [[true]]⟩⟩] [some "ok"]).2.1 = [] := by
  constructor
  · rfl
  · rfl

/-- C1 (amended): with `buffer_data` set, the buffered regions are
retransmitted only after the first "ok" arrives (a first-phase timeout
leaves the buffer untouched and sends nothing further), in original
insertion order, followed by the refresh-off command, and a second "ok" is
awaited under the same timeout with a freshly started clock; if the second
"ok" never arrives the call reports failure — but the buffer has already
been cleared by the retransmission, so it is left empty rather than
non-empty. -/
theorem update_display_resend_protocol (fr : Bool) (t : Nat)
    (buf : List ImgPart) (input : List (Option String)) :
    ((awaitLine t "ok" (popLine input).1 (popLine input).2 0).1 = false →
      update_display fr t true buf input =
        (some false, buf,
          [.line (cmdRefresh ++ " " ++ (if fr then refreshFull else refreshPart))])) ∧
    ((awaitLine t "ok" (popLine input).1 (popLine input).2 0).1 = true →
      ((update_display fr t true buf input).2.2 =
        .line (cmdRefresh ++ " " ++ (if fr then refreshFull else refreshPart)) ::
          (resend_image_data buf).2 ++ [.line (cmdRefresh ++ " " ++ refreshOff)] ∧
       (resend_image_data buf).2 =
         buf.flatMap (fun p => sendImageTx p.x p.y p.image) ∧
       (update_display fr t true buf input).2.1 = [] ∧
       ((awaitLine t "ok"
           (popLine (awaitLine t "ok" (popLine input).1 (popLine input).2 0).2.1).1
           (popLine (awaitLine t "ok" (popLine input).1 (popLine input).2 0).2.1).2 0).1 =
           false →
         (update_display fr t true buf input).1 = some false) ∧
       ((awaitLine t "ok"
           (popLine (awaitLine t "ok" (popLine input).1 (popLine input).2 0).2.1).1
           (popLine (awaitLine t "ok" (popLine input).1 (popLine input).2 0).2.1).2 0).1 =
           true →
         (update_display fr t true buf input).1 = none))) := by
  have hbind : (resend_image_data buf).2 =
      buf.flatMap (fun p => sendImageTx p.x p.y p.image) := by
    unfold resend_image_data
    exact foldr_append_eq_flatMap _ buf
  constructor
  · intro h1
    simp [update_display, h1]
  · intro h1
    refine ⟨?_, hbind, ?_, ?_, ?_⟩
    · cases h2 : (awaitLine t "ok"
          (popLine (awaitLine t "ok" (popLine input).1 (popLine input).2 0).2.1).1
          (popLine (awaitLine t "ok" (popLine input).1 (popLine input).2 0).2.1).2 0).1 <;>
        simp [update_display, h1, h2]
    · cases h2 : (awaitLine t "ok"
          (popLine (awaitLine t "ok" (popLine input).1 (popLine input).2 0).2.1).1
          (popLine (awaitLine t "ok" (popLine input).1 (popLine input).2 0).2.1).2 0).1 <;>
        simp [update_display, resend_image_data, h1, h2]
    · intro h2
      simp [update_display, h1, h2]
    · intro h2
      simp [update_display, h1, h2]

/-- Witness for update_display_resend_protocol: first "ok" delivered, second
missing, one buffered region, partial refresh, one-tenth-second timeout. -/
theorem update_display_resend_witness :
    ((awaitLine 1 "ok" (popLine [some "ok"]).1 (popLine [some "ok"]).2 0).1 = true) ∧
    ((update_display false 1 true [⟨2, 3, ⟨1, 1, [[false]]⟩⟩] [some "ok"]).2.2 =
      .line (cmdRefresh ++ " " ++ (if false then refreshFull else refreshPart)) ::
        (resend_image_data [⟨2, 3, ⟨1, 1, [[false]]⟩⟩]).2 ++
        [.line (cmdRefresh ++ " " ++ refreshOff)] ∧
     (resend_image_data [(⟨2, 3, ⟨1, 1, [[false]]⟩⟩ : ImgPart)]).2 =
       [(⟨2, 3, ⟨1, 1, [[false]]⟩⟩ : ImgPart)].flatMap
         (fun p => sendImageTx p.x p.y p.image) ∧
     (update_display false 1 true [⟨2, 3, ⟨1, 1, [[false]]⟩⟩] [some "ok"]).2.1 = [] ∧
     ((awaitLine 1 "ok"
         (popLine (awaitLine 1 "ok" (popLine [some "ok"]).1
           (popLine [some "ok"]).2 0).2.1).1
         (popLine (awaitLine 1 "ok" (popLine [some "ok"]).1
           (popLine [some "ok"]).2 0).2.1).2 0).1 = false →
       (update_display false 1 true [⟨2, 3, ⟨1, 1, [[false]]⟩⟩] [some "ok"]).1 =
         some false) ∧
     ((awaitLine 1 "ok"
         (popLine (awaitLine 1 "ok" (popLine [some "ok"]).1
           (popLine [some "ok"]).2 0).2.1).1
         (popLine (awaitLine 1 "ok" (popLine [some "ok"]).1
           (popLine [some "ok"]).2 0).2.1).2 0).1 = true →
       (update_display false 1 true [⟨2, 3, ⟨1, 1, [[false]]⟩⟩] [some "ok"]).1 =
         none)) :=
  ⟨rfl, (update_display_resend_protocol false 1 [⟨2, 3, ⟨1, 1, [[false]]⟩⟩]
    [some "ok"]).2 rfl⟩

/-- Auxiliary: masking with a shifted mask is extracting, masking and
shifting back. -/
theorem and_shiftLeft_comm (n m k : Nat) :
    n &&& (m <<< k) = ((n >>> k) &&& m) <<< k := by
  apply Nat.eq_of_testBit_eq
  intro i
  rw [Nat.testBit_and, Nat.testBit_shiftLeft, Nat.testBit_shiftLeft,
    Nat.testBit_and, Nat.testBit_shiftRight]
  by_cases h : k ≤ i
  · simp [ge_iff_le, h, Nat.add_sub_cancel' h, Bool.and_left_comm, Bool.and_comm]
  · simp [ge_iff_le, h]

/-- Auxiliary: masking with the low byte is reduction modulo 256. -/
theorem nat_and_255 (n : Nat) : n &&& 255 = n % 256 := by
  have h : (255 : Nat) = 2 ^ 8 - 1 := by norm_num
  rw [h, Nat.and_pow_two_sub_one_eq_mod]

/-- Auxiliary: truncating a channel value scaled in place (already shifted
by `k` bits) and shifting down recovers the truncated scaling of the plain
channel value, which stays below 255. -/
theorem dim_channel_div (c k : Nat) (p : ℚ) (hp0 : 0 < p) (hp1 : p < 1)
    (hc : c ≤ 255) :
    (Int.toNat ⌊((c <<< k : Nat) : ℚ) * p⌋) / 2 ^ k = Int.toNat ⌊(c : ℚ) * p⌋ ∧
    Int.toNat ⌊(c : ℚ) * p⌋ < 255 := by
  have hx0 : 0 ≤ (c : ℚ) * p := mul_nonneg (Nat.cast_nonneg c) (le_of_lt hp0)
  have hx255 : (c : ℚ) * p < 255 := by
    have h1 : (c : ℚ) * p ≤ 255 * p := by
      apply mul_le_mul_of_nonneg_right _ (le_of_lt hp0)
      exact_mod_cast hc
    have h2 : (255 : ℚ) * p < 255 * 1 := by
      apply mul_lt_mul_of_pos_left hp1
      norm_num
    linarith
  have ha0 : 0 ≤ ⌊(c : ℚ) * p⌋ := Int.floor_nonneg.mpr hx0
  have haux : (⌊(c : ℚ) * p⌋ : ℚ) ≤ (c : ℚ) * p := Int.floor_le _
  have ha1 : (c : ℚ) * p < ⌊(c : ℚ) * p⌋ + 1 := Int.lt_floor_add_one _
  have hcast : ((c <<< k : Nat) : ℚ) * p = (2 ^ k : ℚ) * ((c : ℚ) * p) := by
    rw [Nat.shiftLeft_eq]
    push_cast
    ring
  have hlo : (2 ^ k : ℤ) * ⌊(c : ℚ) * p⌋ ≤ ⌊((c <<< k : Nat) : ℚ) * p⌋ := by
    rw [hcast]
    apply Int.le_floor.mpr
    push_cast
    apply mul_le_mul_of_nonneg_left haux
    positivity
  have hhi : ⌊((c <<< k : Nat) : ℚ) * p⌋ < (2 ^ k : ℤ) * (⌊(c : ℚ) * p⌋ + 1) := by
    rw [hcast]
    apply Int.floor_lt.mpr
    push_cast
    apply mul_lt_mul_of_pos_left ha1
    positivity
  have hM0 : 0 ≤ ⌊((c <<< k : Nat) : ℚ) * p⌋ := by
    have : (0 : ℤ) ≤ (2 ^ k : ℤ) * ⌊(c : ℚ) * p⌋ := by positivity
    linarith
  have hA : (⌊(c : ℚ) * p⌋ : ℤ) = ((Int.toNat ⌊(c : ℚ) * p⌋ : Nat) : ℤ) :=
    (Int.toNat_of_nonneg ha0).symm
  have hMn : (⌊((c <<< k : Nat) : ℚ) * p⌋ : ℤ) =
      ((Int.toNat ⌊((c <<< k : Nat) : ℚ) * p⌋ : Nat) : ℤ) :=
    (Int.toNat_of_nonneg hM0).symm
  have hlt : Int.toNat ⌊(c : ℚ) * p⌋ < 255 := by
    have : ⌊(c : ℚ) * p⌋ < (255 : ℤ) := by
      apply Int.floor_lt.mpr
      push_cast
      exact hx255
    omega
  refine ⟨?_, hlt⟩
  apply Nat.div_eq_of_lt_le
  · have := hlo
    rw [hA, hMn] at this
    exact_mod_cast (by linarith : ((Int.toNat ⌊(c : ℚ) * p⌋ : Nat) : ℤ) * 2 ^ k ≤
      ((Int.toNat ⌊((c <<< k : Nat) : ℚ) * p⌋ : Nat) : ℤ))
  · have := hhi
    rw [hA, hMn] at this
    exact_mod_cast (by linarith : ((Int.toNat ⌊((c <<< k : Nat) : ℚ) * p⌋ : Nat) : ℤ) <
      ((Int.toNat ⌊(c : ℚ) * p⌋ : Nat) + 1 : ℤ) * 2 ^ k)

/-- Auxiliary: the in-place masked scaling of one channel equals the
extract-scale-shift form. -/
theorem channel_eq (n k : Nat) (p : ℚ) (hp0 : 0 < p) (hp1 : p < 1) :
    (Int.toNat ⌊((n &&& (255 <<< k) : Nat) : ℚ) * p⌋) &&& (255 <<< k) =
      (Int.toNat ⌊(((n >>> k) &&& 255 : Nat) : ℚ) * p⌋) <<< k := by
  have hc255 : (n >>> k) &&& 255 ≤ 255 := Nat.and_le_right
  rw [and_shiftLeft_comm n 255 k]
  obtain ⟨hdiv, hlt⟩ := dim_channel_div ((n >>> k) &&& 255) k p hp0 hp1 hc255
  rw [and_shiftLeft_comm _ 255 k, Nat.shiftRight_eq_div_pow, hdiv, nat_and_255,
    Nat.mod_eq_of_lt (by omega)]

/-- Auxiliary: for a fading factor strictly between 0 and 1 the dimming
expression of `fade_leds` scales each of the three channels independently
with truncation. -/
theorem dimColor_eq_scaleChannels (p : ℚ) (i : Nat) (hp0 : 0 < p) (hp1 : p < 1) :
    dimColor p i = scaleChannels p i := by
  unfold dimColor scaleChannels
  have e16 : (0xff0000 : Nat) = 255 <<< 16 := by decide
  have e8 : (0xff00 : Nat) = 255 <<< 8 := by decide
  have h16 := channel_eq i 16 p hp0 hp1
  have h8 := channel_eq i 8 p hp0 hp1
  have h0 := channel_eq i 0 p hp0 hp1
  rw [e16, e8, h16, h8]
  simp only [Nat.shiftRight_zero, Nat.shiftLeft_zero] at h0 ⊢
  rw [show (0xff : Nat) = 255 from rfl] at *
  rw [h0]

/-- C6: for a frame stored at `t0` and examined at elapsed time `e`,
`fade_leds` computes `p = (3.0 + 0.5 - e) / 0.5` and holds (no command, no
state change) while `p >= 1`; once `p <= 0` it clears the stored frame and
commands one all-zero frame, after which every further call is a no-op; in
between it commands each color with all three channels scaled by `p` under
integer truncation while leaving the stored frame and its timestamp
untouched, so the decay is always computed from the original set-point. -/
theorem fade_engine (num : Nat) (leds : List Nat) (t0 e : ℚ) :
    ((1 : ℚ) ≤ (3 + 5/10 - e) / (5/10) →
      fade_leds num ⟨some leds, t0⟩ (t0 + e) = (⟨some leds, t0⟩, none)) ∧
    ((3 + 5/10 - e) / (5/10) ≤ 0 →
      fade_leds num ⟨some leds, t0⟩ (t0 + e) =
        (⟨none, t0⟩, some (List.replicate num 0)) ∧
      (∀ t2 : ℚ, fade_leds num ⟨none, t0⟩ t2 = (⟨none, t0⟩, none))) ∧
    (0 < (3 + 5/10 - e) / (5/10) → (3 + 5/10 - e) / (5/10) < 1 →
      fade_leds num ⟨some leds, t0⟩ (t0 + e) =
        (⟨some leds, t0⟩,
         some (leds.map (scaleChannels ((3 + 5/10 - e) / (5/10)))))) := by
  have hpe : (35/10 - ((t0 + e) - t0)) / ((5 : ℚ)/10) = (3 + 5/10 - e) / (5/10) := by
    ring
  refine ⟨?_, ?_, ?_⟩
  · intro h
    simp only [fade_leds]
    rw [hpe, if_pos h]
  · intro h
    constructor
    · simp only [fade_leds]
      rw [hpe, if_neg (by linarith), if_pos h]
    · intro t2
      simp only [fade_leds]
  · intro h0 h1
    simp only [fade_leds]
    rw [hpe, if_neg (by linarith), if_neg (by linarith)]
    have hfun : dimColor ((3 + 5/10 - e) / (5/10)) =
        scaleChannels ((3 + 5/10 - e) / (5/10)) := by
      funext i
      exact dimColor_eq_scaleChannels _ i h0 h1
    rw [hfun]

/-- Witness for fade_engine: one full-red LED set at time 0, examined at
1 s (hold), 3.6 s (cleared), and 3.25 s (scaled by one half). -/
theorem fade_engine_witness :
    fade_leds 1 ⟨some [0xff0000], 0⟩ (0 + 1) = (⟨some [0xff0000], 0⟩, none) ∧
    (fade_leds 1 ⟨some [0xff0000], 0⟩ (0 + 18/5) =
      (⟨none, 0⟩, some (List.replicate 1 0)) ∧
     (∀ t2 : ℚ, fade_leds 1 ⟨none, 0⟩ t2 = (⟨none, 0⟩, none))) ∧
    fade_leds 1 ⟨some [0xff0000], 0⟩ (0 + 13/4) =
      (⟨some [0xff0000], 0⟩,
       some ([0xff0000].map (scaleChannels ((3 + 5/10 - 13/4) / (5/10))))) :=
  ⟨(fade_engine 1 [0xff0000] 0 1).1 (by norm_num),
   (fade_engine 1 [0xff0000] 0 (18/5)).2.1 (by norm_num),
   (fade_engine 1 [0xff0000] 0 (13/4)).2.2 (by norm_num) (by norm_num)⟩

end Inkkeys
